import Mathlib

/-!
Shallow embedding of the AgroSanga web application (React + Supabase) and
verification of its specification claims.

Modelling conventions:
* JavaScript strings are modelled as Lean `String` (lengths are counted in
  code points; all concrete inputs used below are ASCII, where this agrees
  with JavaScript's UTF-16 length).
* Numeric strings parsed by `parseFloat` are modelled exactly over `ℚ`
  (JavaScript double rounding does not change the sign of any value
  appearing in the claims).
* The Supabase SDK surfaces failures as returned `{ error }` objects, never
  by throwing on the modelled paths; external-call outcomes are passed in as
  explicit environment parameters and the durable effects and UI effects
  (toasts, console logs) of each handler are returned as data.
-/

namespace AgroSanga

/-- A browser `File` object as seen by the upload handlers: only the fields
the code reads (`name`, `type`, `size` in bytes). -/
structure JsFile where
  name : String
  type : String
  size : Nat
  deriving DecidableEq, Repr

/-- A toast notification as produced by `useToast`'s `toast({...})`. -/
structure Toast where
  title : String
  description : String
  destructive : Bool
  deriving DecidableEq, Repr

/-- Common local state of the two feature pages (`PredictYield`,
`RecommendCrop`) that `handleFileSelect` touches: the selected file, the
displayed result (of page-specific type `α`) and the toasts shown so far. -/
structure FilePageState (α : Type) where
  selectedFile : Option JsFile
  result : Option α
  toasts : List Toast

/-- `const allowedTypes = ['image/jpeg', 'image/png', 'application/pdf']`
(identical in both feature pages). -/
def allowedTypes : List String := ["image/jpeg", "image/png", "application/pdf"]

/-- The size ceiling `5 * 1024 * 1024` used by `file.size > 5 * 1024 * 1024`. -/
def maxFileSize : Nat := 5 * 1024 * 1024

/-- `handleFileSelect` as written (identically) in `PredictYield` and
`RecommendCrop`: no file chosen is a no-op; a disallowed MIME type or a size
above the ceiling shows a destructive toast and returns early; otherwise the
file becomes the selected file and the displayed result is cleared. -/
def handleFileSelect (st : FilePageState α) (file : Option JsFile) :
    FilePageState α :=
  match file with
  | none => st
  | some f =>
    if ¬ (allowedTypes.contains f.type) then
      { st with toasts := st.toasts ++
          [⟨"Invalid File Type", "Please upload a JPG, PNG, or PDF file", true⟩] }
    else if f.size > maxFileSize then
      { st with toasts := st.toasts ++
          [⟨"File Too Large", "Please upload a file smaller than 5MB", true⟩] }
    else
      { st with selectedFile := some f, result := none }

/-- `e.target.value.replace(/\D/g, '')`: JavaScript `replace` with the
global non-digit class deletes every non-digit character, scanning left to
right. -/
def jsReplaceNonDigits : List Char → List Char
  | [] => []
  | c :: cs => if c.isDigit then c :: jsReplaceNonDigits cs else jsReplaceNonDigits cs

/-- JavaScript `String.prototype.slice(start, stop)` for non-negative
in-range arguments, on the character list. -/
def jsSlice (start stop : Nat) (l : List Char) : List Char :=
  (l.take stop).drop start

/-- The `onChange` sanitisation of the mobile-number inputs, written
identically in `Register.tsx` and `Login.tsx`:
`e.target.value.replace(/\D/g, '').slice(0, 10)`. -/
def mobileInputSanitize (s : String) : String :=
  String.mk (jsSlice 0 10 (jsReplaceNonDigits s.data))

/-- A Supabase auth `User`: only the field the code reads (`id`). -/
structure UserT where
  id : String
  deriving DecidableEq, Repr

/-- A Supabase auth `Session`; `session.user` is always present on a live
session, so `session?.user ?? null` is `none` exactly when the session is. -/
structure SessionT where
  user : UserT
  deriving DecidableEq, Repr

/-- The state held by `AuthProvider` (`user`, `session`, `loading`). -/
structure AuthState where
  user : Option UserT
  session : Option SessionT
  loading : Bool
  deriving DecidableEq, Repr

/-- Initial provider state: `useState(null)`, `useState(null)`,
`useState(true)`. -/
def initialAuthState : AuthState := ⟨none, none, true⟩

/-- A deferred, fire-and-forget task scheduled by the auth-state handler
(the `setTimeout(async () => {...}, 0)` profile lookup). -/
inductive Deferred where
  | fetchProfile (userId : String)
  deriving DecidableEq, Repr

/-- The `onAuthStateChange` callback: it unconditionally stores the incoming
session, sets `user` to `session?.user ?? null`, clears `loading`, and — only
when the event is `'SIGNED_IN'` and the session has a user — schedules the
deferred profile lookup. -/
def onAuthStateChange (event : String) (sess : Option SessionT)
    (st : AuthState) : AuthState × List Deferred :=
  let st' : AuthState :=
    { st with session := sess, user := sess.map SessionT.user, loading := false }
  let deferred : List Deferred :=
    match sess with
    | some s => if event = "SIGNED_IN" then [Deferred.fetchProfile s.user.id] else []
    | none => []
  (st', deferred)

/-- A console log entry (`console.log` / `console.error`). -/
inductive LogEntry where
  | log (msg : String)
  | error (msg : String)
  deriving DecidableEq, Repr

/-- A profile row, reduced to the fields the application reads. -/
structure ProfileRow where
  userId : String
  name : String
  mobileNumber : String
  surveyNumber : Option String
  deriving DecidableEq, Repr

/-- Running the deferred profile lookup scheduled by `onAuthStateChange`: the
`try { ... } catch { console.error } ` body only reads; whatever the lookup's
outcome, the provider state is returned untouched and failure produces only a
console entry. -/
def runDeferredFetch (outcome : Except String (Option ProfileRow))
    (st : AuthState) : AuthState × List LogEntry :=
  match outcome with
  | .error _ => (st, [LogEntry.error "Error fetching profile:"])
  | .ok none => (st, [LogEntry.log "No profile found for user"])
  | .ok (some _) => (st, [])

/-- The `.then` continuation of the initial `supabase.auth.getSession()`
call: the same three assignments as the change handler, with no deferred
lookup. -/
def resolveGetSession (sess : Option SessionT) (st : AuthState) : AuthState :=
  { st with session := sess, user := sess.map SessionT.user, loading := false }

/-- Folding a sequence of auth-state notifications (event name and session)
through the provider, keeping only the state. -/
def applyAuthEvents (st : AuthState) (evs : List (String × Option SessionT)) :
    AuthState :=
  evs.foldl (fun s e => (onAuthStateChange e.1 e.2 s).1) st

/-- An error object returned by a Supabase call (`{ message }`). -/
structure JsError where
  message : String
  deriving DecidableEq, Repr

/-- The `data` of `supabase.auth.signUp`: the code only reads `data.user`. -/
structure SignUpData where
  user : Option UserT
  deriving DecidableEq, Repr

/-- The registration payload `userData` passed to `signUp` by the Register
page. -/
structure UserData where
  name : String
  mobileNumber : String
  surveyNumber : Option String
  farmArea : String
  deriving DecidableEq, Repr

/-- Durable external effects a `signUp` run can leave behind.
`accountDeleted` is included so that the absence of any compensating
deletion is expressible; no branch of the source emits it. A profile insert
stores `user_id` together with the row derived from `userData` (its
`farm_area` column being `parseFloat(userData.farmArea)`). -/
inductive ExternalEffect where
  | accountCreated (email : String)
  | accountDeleted (email : String)
  | profileInserted (userId : String) (row : UserData)
  deriving DecidableEq, Repr

/-- Outcomes of the external calls `signUp` makes, passed in as an
environment: the result of `supabase.auth.signUp` and the error (if any)
returned by the subsequent `profiles` insert. -/
structure SignUpEnv where
  authResult : Except JsError SignUpData
  profileInsertError : Option JsError
  deriving Repr

/-- What one run of `signUp` produces: the durable external effects in
place afterwards, the toasts shown, the console entries, and the returned
`{ error }`. -/
structure SignUpRun where
  effects : List ExternalEffect
  toasts : List Toast
  console : List LogEntry
  ret : Option JsError
  deriving DecidableEq, Repr

/-- `signUp` from `AuthContext`: create the auth account; on auth error,
toast and return it. Otherwise, if a user was created, insert the profile
row; a failed insert is reported by a destructive toast (and a console
entry) only — no rollback of the created account — and the function still
falls through to `return { error: null }`. -/
def signUp (email : String) (userData : UserData) (env : SignUpEnv) :
    SignUpRun :=
  match env.authResult with
  | .error e =>
    { effects := [], console := [],
      toasts := [⟨"Registration Error", e.message, true⟩], ret := some e }
  | .ok data =>
    match data.user with
    | none =>
      { effects := [.accountCreated email], toasts := [], console := [],
        ret := none }
    | some u =>
      match env.profileInsertError with
      | some _ =>
        { effects := [.accountCreated email],
          toasts := [⟨"Profile Creation Error",
            "Account created but profile setup failed. Please contact support.",
            true⟩],
          console := [LogEntry.error "Error creating profile:"],
          ret := none }
      | none =>
        { effects := [.accountCreated email, .profileInserted u.id userData],
          toasts := [⟨"Registration Successful!",
            "Your account has been created successfully. You can now login.",
            false⟩],
          console := [], ret := none }

/-- The JavaScript whitespace set (ECMAScript WhiteSpace and
LineTerminator code points), used both by `String.prototype.trim` and by
`parseFloat`'s leading-whitespace skip. -/
def isJsWhitespace (c : Char) : Bool :=
  [0x9, 0xA, 0xB, 0xC, 0xD, 0x20, 0xA0, 0x1680,
   0x2000, 0x2001, 0x2002, 0x2003, 0x2004, 0x2005, 0x2006, 0x2007,
   0x2008, 0x2009, 0x200A, 0x2028, 0x2029, 0x202F, 0x205F, 0x3000,
   0xFEFF].contains c.toNat

/-- JavaScript `String.prototype.trim`: strip the JS whitespace set from
both ends. -/
def jsTrim (s : String) : String :=
  String.mk (((s.data.dropWhile isJsWhitespace).reverse.dropWhile
    isJsWhitespace).reverse)

/-- Value of a digit list read in base 10. -/
def digitsVal (l : List Char) : Nat :=
  l.foldl (fun acc c => acc * 10 + (c.toNat - '0'.toNat)) 0

/-- Result of JavaScript `parseFloat`, at the grammar level: `NaN`, a
signed infinity, or a finite decimal
`(-1)^neg * (mantissa / 10^scale) * 10^((-1)^expNeg * exp)`; the rational
it denotes is `ParsedFloat.toRat?` (doubles are modelled exactly). -/
inductive ParsedFloat where
  | nan
  | inf (neg : Bool)
  | val (neg : Bool) (mantissa scale : Nat) (expNeg : Bool) (exp : Nat)
  deriving DecidableEq, Repr

/-- The rational value denoted by a finite `ParsedFloat`. -/
def ParsedFloat.toRat? : ParsedFloat → Option ℚ
  | .nan => none
  | .inf _ => none
  | .val neg m sc en e =>
    some ((if neg then -1 else 1) * ((m : ℚ) / (10 : ℚ) ^ sc) *
      (if en then 1 / (10 : ℚ) ^ e else (10 : ℚ) ^ e))

/-- Parse an unsigned decimal significand (`digits`, `digits.digits`,
`.digits`) as mantissa digits and fractional scale, returning the remaining
characters; `none` when no digit is found before the end or the dot. -/
def parseSignificand (l : List Char) : Option (Nat × Nat × List Char) :=
  let ip := l.takeWhile Char.isDigit
  let r1 := l.dropWhile Char.isDigit
  match r1 with
  | '.' :: r2 =>
    let fp := r2.takeWhile Char.isDigit
    let r3 := r2.dropWhile Char.isDigit
    if ip.isEmpty && fp.isEmpty then none
    else some (digitsVal (ip ++ fp), fp.length, r3)
  | _ =>
    if ip.isEmpty then none else some (digitsVal ip, 0, r1)

/-- Read an optional exponent part (`e`/`E`, optional sign, digits); as in
JavaScript, a malformed exponent tail is ignored (exponent 0). -/
def parseExponent (l : List Char) : Bool × Nat :=
  match l with
  | 'e' :: r | 'E' :: r =>
    let signed : Bool × List Char :=
      match r with
      | '+' :: t => (false, t)
      | '-' :: t => (true, t)
      | _ => (false, r)
    let ds := signed.2.takeWhile Char.isDigit
    if ds.isEmpty then (false, 0) else (signed.1, digitsVal ds)
  | _ => (false, 0)

/-- JavaScript `parseFloat`: skip leading whitespace, read an optional sign,
then either `Infinity` or a decimal significand with optional exponent;
anything else yields `NaN`. Trailing garbage is ignored. -/
def parseFloat (s : String) : ParsedFloat :=
  let l := s.data.dropWhile isJsWhitespace
  let signed : Bool × List Char :=
    match l with
    | '+' :: t => (false, t)
    | '-' :: t => (true, t)
    | _ => (false, l)
  if "Infinity".data.isPrefixOf signed.2 then .inf signed.1
  else
    match parseSignificand signed.2 with
    | none => .nan
    | some (m, sc, rest) =>
      let ex := parseExponent rest
      .val signed.1 m sc ex.1 ex.2

/-- The farm-area refinement of the registration schema:
`!isNaN(parseFloat(val)) && parseFloat(val) > 0`. A finite parsed decimal
is positive exactly when its sign is positive and its mantissa is nonzero;
`farmAreaPositive_iff_toRat_pos` below proves this form equal to the
`0 < parseFloat(val)` reading. -/
def farmAreaPositive (s : String) : Bool :=
  match parseFloat s with
  | .nan => false
  | .inf neg => !neg
  | .val neg m _ _ _ => !neg && decide (0 < m)

/-- `/^[0-9]+$/.test(s)`: at least one character, all of them digits. -/
def allDigits (s : String) : Bool :=
  decide (s.length ≥ 1) && s.data.all Char.isDigit

/-- Issues (in check order) that zod reports for the `name` field:
`z.string().min(2, ...).max(50, ...).trim()`. The length checks run
*before* the `.trim()` transform, so lengths are those of the raw input. -/
def nameIssues (s : String) : List String :=
  (if s.length < 2 then ["Name must be at least 2 characters"] else []) ++
  (if s.length > 50 then ["Name must be less than 50 characters"] else [])

/-- Issues for the `mobileNumber` field:
`z.string().min(10, ...).max(10, ...).regex(/^[0-9]+$/, ...)`. -/
def mobileIssues (s : String) : List String :=
  (if s.length < 10 then ["Mobile number must be 10 digits"] else []) ++
  (if s.length > 10 then ["Mobile number must be 10 digits"] else []) ++
  (if !allDigits s then ["Mobile number must contain only numbers"] else [])

/-- Issues for the Register `password` field:
`z.string().min(6, ...).max(100, ...)`. -/
def passwordIssues (s : String) : List String :=
  (if s.length < 6 then ["Password must be at least 6 characters"] else []) ++
  (if s.length > 100 then ["Password too long"] else [])

/-- Issues for the `farmArea` field: `z.string().min(1, ...).refine(...)`.
zod runs the refinement even when the `min(1)` check has already failed
(a dirty, not aborted, parse), so both issues can appear. -/
def farmAreaIssues (s : String) : List String :=
  (if s.length < 1 then ["Farm area is required"] else []) ++
  (if !farmAreaPositive s then ["Farm area must be a positive number"] else [])

/-- Issues for the Login `password` field: `z.string().min(6, ...)`. -/
def loginPasswordIssues (s : String) : List String :=
  if s.length < 6 then ["Password must be at least 6 characters"] else []

/-- The Register page's `formData` fields. -/
structure RegisterForm where
  name : String
  mobileNumber : String
  password : String
  surveyNumber : String
  farmArea : String
  deriving DecidableEq, Repr

/-- All issues of `registerSchema.parse(formData)`, each tagged with the
field (`err.path[0]`) it belongs to, in the object's key order
(`surveyNumber` is `z.string().optional()` and never fails). -/
def registerIssues (f : RegisterForm) : List (String × String) :=
  (nameIssues f.name).map (fun m => ("name", m)) ++
  (mobileIssues f.mobileNumber).map (fun m => ("mobileNumber", m)) ++
  (passwordIssues f.password).map (fun m => ("password", m)) ++
  (farmAreaIssues f.farmArea).map (fun m => ("farmArea", m))

/-- The Login page's form fields. -/
structure LoginForm where
  mobileNumber : String
  password : String
  deriving DecidableEq, Repr

/-- All issues of `loginSchema.parse({ mobileNumber, password })`, tagged
with their field. -/
def loginIssues (f : LoginForm) : List (String × String) :=
  (mobileIssues f.mobileNumber).map (fun m => ("mobileNumber", m)) ++
  (loginPasswordIssues f.password).map (fun m => ("password", m))

/-- One JavaScript object assignment `newErrors[kv.1] = kv.2` on an object
represented as its (first-insertion-ordered) key/value list: overwrite the
value if the key is present, append otherwise. -/
def assignError (acc : List (String × String)) (kv : String × String) :
    List (String × String) :=
  if acc.any (fun p => p.1 == kv.1) then
    acc.map (fun p => if p.1 == kv.1 then kv else p)
  else acc ++ [kv]

/-- The `newErrors` object built by both `validateForm`s:
`error.errors.forEach((err) => { newErrors[err.path[0]] = err.message })`. -/
def collectErrors (issues : List (String × String)) : List (String × String) :=
  issues.foldl assignError []

/-- Reading a key of the errors object (`errors.name && ...`). -/
def lookupError (errs : List (String × String)) (k : String) : Option String :=
  (errs.find? (fun p => p.1 == k)).map (fun p => p.2)

/-- The `userData` object built by the Register page's `handleSubmit`:
trimmed name, raw mobile number, `surveyNumber.trim() || null`, raw farm
area string. -/
def registerUserData (f : RegisterForm) : UserData :=
  { name := jsTrim f.name
    mobileNumber := f.mobileNumber
    surveyNumber := if jsTrim f.surveyNumber = "" then none else some (jsTrim f.surveyNumber)
    farmArea := f.farmArea }

/-- The synthetic address built by Register's `handleSubmit` (and by
`signIn`): `mobileNumber + "@agrosanga.local"`. -/
def registerEmail (f : RegisterForm) : String :=
  f.mobileNumber ++ "@agrosanga.local"

/-- Observable outcome of one Register `handleSubmit` run. `signUpCall` is
the argument triple handed to `signUp` (`none` when validation blocked the
call). -/
structure RegisterSubmit where
  validated : Bool
  errors : List (String × String)
  signUpCall : Option (String × String × UserData)
  navigatedToLogin : Bool
  deriving DecidableEq, Repr

/-- Register's `handleSubmit`: run `validateForm` (parse against
`registerSchema`, storing the collected errors); on failure return before
calling `signUp`; on success clear the errors, call `signUp`, and navigate
to `/login` exactly when it returned no error. The return value of `signUp`
is supplied as `signUpRet`. -/
def handleSubmitRegister (f : RegisterForm) (signUpRet : Option JsError) :
    RegisterSubmit :=
  let issues := registerIssues f
  if issues.isEmpty then
    { validated := true
      errors := []
      signUpCall := some (registerEmail f, f.password, registerUserData f)
      navigatedToLogin := signUpRet.isNone }
  else
    { validated := false
      errors := collectErrors issues
      signUpCall := none
      navigatedToLogin := false }

/-- Observable outcome of one Login `handleSubmit` run. `signInCall` is the
`(mobile, password)` pair handed to `signIn` (`none` when validation blocked
the call). -/
structure LoginSubmit where
  validated : Bool
  errors : List (String × String)
  signInCall : Option (String × String)
  navigatedHome : Bool
  deriving DecidableEq, Repr

/-- Login's `handleSubmit`: validate against `loginSchema`; on failure
return before calling `signIn`; on success call `signIn` and navigate to
`/` exactly when it returned no error. -/
def handleSubmitLogin (f : LoginForm) (signInRet : Option JsError) :
    LoginSubmit :=
  let issues := loginIssues f
  if issues.isEmpty then
    { validated := true
      errors := []
      signInCall := some (f.mobileNumber, f.password)
      navigatedHome := signInRet.isNone }
  else
    { validated := false
      errors := collectErrors issues
      signInCall := none
      navigatedHome := false }

/-- `signOut` from `AuthContext`: delegate to the backend and toast; the
state itself is nulled by the subsequent auth-state notification. -/
def signOut (err : Option JsError) : List Toast :=
  match err with
  | none => [⟨"Signed out successfully", "Come back soon!", false⟩]
  | some e => [⟨"Error signing out", e.message, true⟩]

/-- The weather snapshot the RecommendCrop page keeps in state. -/
structure WeatherData where
  temperature : ℤ
  humidity : ℤ
  rainfall : ℤ
  season : String
  deriving DecidableEq, Repr

/-- External calls issued by `handleAnalysis`. -/
inductive ExtCall where
  | storageUpload
  | dbInsert (table : String)
  deriving DecidableEq, Repr

/-- Outcomes of the external calls `handleAnalysis` makes: the error (if
any) returned by the storage upload, and by the database insert. -/
structure AnalysisEnv where
  uploadError : Option JsError
  dbError : Option JsError
  deriving Repr

/-- Observable outcome of one `handleAnalysis` run: the external calls
issued (in order), whether a row is durably in the table afterwards,
whether the mock analysis step ran, the final displayed result, the toasts,
the console entries, and the final `analyzing` flag (reset by `finally`;
the handler is only reachable from a non-analyzing state). -/
structure AnalysisRun (α : Type) where
  calls : List ExtCall
  inserted : Bool
  analysisRan : Bool
  result : Option α
  toasts : List Toast
  console : List LogEntry
  analyzing : Bool

/-- `error.message || "Something went wrong during analysis"`. -/
def analysisFailDesc (e : JsError) : String :=
  if e.message = "" then "Something went wrong during analysis" else e.message

/-- `handleAnalysis` of the RecommendCrop page. Guard: missing file, user
or weather data toasts an error and returns. Then: upload (an upload error
is thrown, caught below, toasted, and ends the run with the previous result
still displayed); mock analysis; database insert into
`crop_recommendations` whose error is only written to the console — the
run still displays the result and a success toast. The mock analysis result
is supplied as `analysis`. -/
def handleAnalysisRecommend (file : Option JsFile) (user : Option UserT)
    (weather : Option WeatherData) (prevResult : Option α)
    (env : AnalysisEnv) (analysis : α) : AnalysisRun α :=
  if file.isNone || user.isNone || weather.isNone then
    { calls := [], inserted := false, analysisRan := false
      result := prevResult
      toasts := [⟨"Error",
        "Please upload a soil report and ensure weather data is loaded", true⟩]
      console := [], analyzing := false }
  else
    match env.uploadError with
    | some e =>
      { calls := [.storageUpload], inserted := false, analysisRan := false
        result := prevResult
        toasts := [⟨"Analysis Failed", analysisFailDesc e, true⟩]
        console := [LogEntry.error "Error during analysis:"]
        analyzing := false }
    | none =>
      match env.dbError with
      | some _ =>
        { calls := [.storageUpload, .dbInsert "crop_recommendations"]
          inserted := false, analysisRan := true
          result := some analysis
          toasts := [⟨"Analysis Complete!",
            "Your crop recommendations are ready", false⟩]
          console := [LogEntry.error "Error saving recommendation:"]
          analyzing := false }
      | none =>
        { calls := [.storageUpload, .dbInsert "crop_recommendations"]
          inserted := true, analysisRan := true
          result := some analysis
          toasts := [⟨"Analysis Complete!",
            "Your crop recommendations are ready", false⟩]
          console := [], analyzing := false }

/-- `handleAnalysis` of the PredictYield page; same structure with its own
guard message, table (`yield_predictions`), console message and success
toast. -/
def handleAnalysisPredict (file : Option JsFile) (user : Option UserT)
    (prevResult : Option α) (env : AnalysisEnv) (analysis : α) :
    AnalysisRun α :=
  if file.isNone || user.isNone then
    { calls := [], inserted := false, analysisRan := false
      result := prevResult
      toasts := [⟨"Error",
        "Please select a file and make sure you're logged in", true⟩]
      console := [], analyzing := false }
  else
    match env.uploadError with
    | some e =>
      { calls := [.storageUpload], inserted := false, analysisRan := false
        result := prevResult
        toasts := [⟨"Analysis Failed", analysisFailDesc e, true⟩]
        console := [LogEntry.error "Error during analysis:"]
        analyzing := false }
    | none =>
      match env.dbError with
      | some _ =>
        { calls := [.storageUpload, .dbInsert "yield_predictions"]
          inserted := false, analysisRan := true
          result := some analysis
          toasts := [⟨"Analysis Complete!", "Your yield prediction is ready", false⟩]
          console := [LogEntry.error "Error saving prediction:"]
          analyzing := false }
      | none =>
        { calls := [.storageUpload, .dbInsert "yield_predictions"]
          inserted := true, analysisRan := true
          result := some analysis
          toasts := [⟨"Analysis Complete!", "Your yield prediction is ready", false⟩]
          console := [], analyzing := false }

/-- The registration rules as implemented by `registerSchema` (lengths of
the raw, untrimmed inputs; secret capped at 100; farm area nonempty and
parsing to a positive number). -/
def codeRegisterRulesOk (f : RegisterForm) : Bool :=
  (decide (2 ≤ f.name.length) && decide (f.name.length ≤ 50)) &&
  (decide (f.mobileNumber.length = 10) && allDigits f.mobileNumber) &&
  (decide (6 ≤ f.password.length) && decide (f.password.length ≤ 100)) &&
  (decide (1 ≤ f.farmArea.length) && farmAreaPositive f.farmArea)

/-- Modelled from the spec: the claim's reading of the registration rules —
name 2–50 characters *after trimming*, contact exactly 10 digits, secret at
least 6 characters, farm area parsing to a positive number, reference code
unconstrained. Kept separate from `codeRegisterRulesOk` for refinement
comparison. -/
def specRegisterRulesOk (f : RegisterForm) : Bool :=
  (decide (2 ≤ (jsTrim f.name).length) && decide ((jsTrim f.name).length ≤ 50)) &&
  (decide (f.mobileNumber.length = 10) && allDigits f.mobileNumber) &&
  decide (6 ≤ f.password.length) &&
  farmAreaPositive f.farmArea

/-! ## Helper lemmas -/

/-- `replace(/\D/g, '')` deletes exactly the non-digit characters. -/
theorem jsReplaceNonDigits_eq_filter (l : List Char) :
    jsReplaceNonDigits l = l.filter Char.isDigit := by
  induction l with
  | nil => rfl
  | cons c cs ih =>
    by_cases h : c.isDigit <;> simp [jsReplaceNonDigits, List.filter_cons, h, ih]

/-- The provider invariant `user = session?.user ?? null` is preserved by
every auth-state notification. -/
theorem applyAuthEvents_invariant (evs : List (String × Option SessionT))
    (st : AuthState) (h : st.user = st.session.map SessionT.user) :
    (applyAuthEvents st evs).user
      = (applyAuthEvents st evs).session.map SessionT.user := by
  induction evs generalizing st with
  | nil => exact h
  | cons e t ih =>
    simp only [applyAuthEvents, List.foldl_cons] at ih ⊢
    exact ih _ rfl

/-- Appending one more notification folds as one step. -/
theorem applyAuthEvents_append_one (st : AuthState)
    (evs : List (String × Option SessionT)) (e : String × Option SessionT) :
    applyAuthEvents st (evs ++ [e])
      = (onAuthStateChange e.1 e.2 (applyAuthEvents st evs)).1 := by
  simp [applyAuthEvents, List.foldl_append]

/-- The structural positivity test in `farmAreaPositive` agrees with the
`parseFloat(val) > 0` reading: a finite parsed decimal denotes a positive
rational exactly when its sign is positive and its mantissa is nonzero. -/
theorem farmAreaPositive_iff_toRat_pos (s : String) :
    farmAreaPositive s =
      (match parseFloat s with
       | .nan => false
       | .inf neg => !neg
       | r => decide (∃ q, r.toRat? = some q ∧ 0 < q)) := by
  unfold farmAreaPositive
  cases hp : parseFloat s with
  | nan => rfl
  | inf neg => rfl
  | val neg m sc en e =>
    simp only [ParsedFloat.toRat?, Option.some.injEq, exists_eq_left']
    have h10sc : (0 : ℚ) < (10 : ℚ) ^ sc := by positivity
    have h10e : (0 : ℚ) < (10 : ℚ) ^ e := by positivity
    cases neg with
    | false =>
      cases en with
      | false =>
        simp only [Bool.false_eq_true, if_false, one_mul, Bool.true_and, Bool.not_false]
        rcases Nat.eq_zero_or_pos m with hm | hm
        · simp [hm]
        · have : (0 : ℚ) < (m : ℚ) / (10 : ℚ) ^ sc * (10 : ℚ) ^ e := by
            apply mul_pos (div_pos (by exact_mod_cast hm) h10sc) h10e
          simp [hm, this]
      | true =>
        simp only [if_true, one_mul, Bool.not_false]
        rcases Nat.eq_zero_or_pos m with hm | hm
        · simp [hm]
        · have : (0 : ℚ) < (m : ℚ) / (10 : ℚ) ^ sc * (1 / (10 : ℚ) ^ e) := by
            apply mul_pos (div_pos (by exact_mod_cast hm) h10sc)
            positivity
          simp [hm, this]
    | true =>
      have hnonpos : ∀ x : ℚ, 0 ≤ x → ¬ (0 : ℚ) < -1 * x := by
        intro x hx
        nlinarith
      cases en with
      | false =>
        have hx : (0 : ℚ) ≤ (m : ℚ) / (10 : ℚ) ^ sc * (10 : ℚ) ^ e := by positivity
        simp only [if_true, Bool.false_and, Bool.not_true]
        rw [mul_assoc]
        simp [hnonpos _ hx] <;> positivity
      | true =>
        have hx : (0 : ℚ) ≤ (m : ℚ) / (10 : ℚ) ^ sc * (1 / (10 : ℚ) ^ e) := by
          positivity
        simp only [if_true, Bool.false_and, Bool.not_true]
        rw [mul_assoc]
        simp [hnonpos _ hx] <;> positivity

/-- Overwriting a value in the errors object keeps its key set. -/
theorem find?_isSome_map_assign (acc : List (String × String))
    (kv : String × String) (k : String) :
    ((acc.map (fun p => if p.1 == kv.1 then kv else p)).find?
        (fun p => p.1 == k)).isSome
      = (acc.find? (fun p => p.1 == k)).isSome := by
  induction acc with
  | nil => rfl
  | cons a t ih =>
    have hkey : ((if a.1 == kv.1 then kv else a).1 == k) = (a.1 == k) := by
      by_cases h : a.1 = kv.1 <;> simp [h]
    simp only [List.map_cons, List.find?_cons, hkey]
    cases hak : (a.1 == k) with
    | true => simp
    | false => simpa using ih

/-- One object assignment makes exactly its key (newly) present. -/
theorem lookupError_assign_isSome (acc : List (String × String))
    (kv : String × String) (k : String) :
    (lookupError (assignError acc kv) k).isSome
      = ((lookupError acc k).isSome || (kv.1 == k)) := by
  have hmap : ∀ o : Option (String × String),
      (o.map (fun p => p.2)).isSome = o.isSome := by
    intro o; cases o <;> rfl
  unfold assignError lookupError
  by_cases h : acc.any (fun p => p.1 == kv.1)
  · simp only [h, if_true, hmap]
    rw [find?_isSome_map_assign]
    by_cases hk : kv.1 = k
    · subst hk
      have hs : (acc.find? (fun p => p.1 == kv.1)).isSome := by
        rw [List.find?_isSome]
        simpa [List.any_eq_true] using h
      simp [hs]
    · simp [hk]
  · simp only [h, if_false, hmap, List.find?_append]
    cases hf : acc.find? (fun p => p.1 == k) with
    | some v => simp [hf, Option.or]
    | none =>
      by_cases hk : kv.1 = k <;>
        simp [hf, Option.or, List.find?_cons, hk]

/-- A key is present in the collected errors object exactly when some issue
carries it. -/
theorem lookupError_collect_isSome (issues : List (String × String))
    (k : String) :
    (lookupError (collectErrors issues) k).isSome
      = issues.any (fun p => p.1 == k) := by
  suffices h : ∀ acc : List (String × String),
      (lookupError (issues.foldl assignError acc) k).isSome
        = ((lookupError acc k).isSome || issues.any (fun p => p.1 == k)) by
    have := h []
    simpa [collectErrors, lookupError] using this
  induction issues with
  | nil => intro acc; simp
  | cons kv t ih =>
    intro acc
    simp only [List.foldl_cons, List.any_cons]
    rw [ih, lookupError_assign_isSome]
    cases hkv : (kv.1 == k) <;> simp [Bool.or_assoc]

/-- The name field passes its checks exactly when its raw length is in
range. -/
theorem nameIssues_eq_nil_iff (s : String) :
    nameIssues s = [] ↔ (2 ≤ s.length ∧ s.length ≤ 50) := by
  unfold nameIssues
  by_cases h1 : s.length < 2 <;> by_cases h2 : s.length > 50 <;>
    simp [h1, h2] <;> omega

/-- The mobile field passes its checks exactly when it is ten digits. -/
theorem mobileIssues_eq_nil_iff (s : String) :
    mobileIssues s = [] ↔ (s.length = 10 ∧ allDigits s = true) := by
  unfold mobileIssues
  by_cases h1 : s.length < 10 <;> by_cases h2 : s.length > 10 <;>
    cases h3 : allDigits s <;> simp [h1, h2, h3] <;> omega

/-- The password field passes its checks exactly when its length is in
range. -/
theorem passwordIssues_eq_nil_iff (s : String) :
    passwordIssues s = [] ↔ (6 ≤ s.length ∧ s.length ≤ 100) := by
  unfold passwordIssues
  by_cases h1 : s.length < 6 <;> by_cases h2 : s.length > 100 <;>
    simp [h1, h2] <;> omega

/-- The farm-area field passes its checks exactly when it is nonempty and
parses to a positive number. -/
theorem farmAreaIssues_eq_nil_iff (s : String) :
    farmAreaIssues s = [] ↔ (1 ≤ s.length ∧ farmAreaPositive s = true) := by
  unfold farmAreaIssues
  by_cases h1 : s.length < 1 <;> cases h2 : farmAreaPositive s <;>
    simp [h1, h2] <;> omega

/-- The registration schema accepts exactly the forms passing the
implemented rule set. -/
theorem registerIssues_eq_nil_iff (f : RegisterForm) :
    registerIssues f = [] ↔ codeRegisterRulesOk f = true := by
  have h : registerIssues f = [] ↔
      (nameIssues f.name = [] ∧ mobileIssues f.mobileNumber = [] ∧
       passwordIssues f.password = [] ∧ farmAreaIssues f.farmArea = []) := by
    simp [registerIssues, List.append_eq_nil, List.map_eq_nil_iff]
  rw [h, nameIssues_eq_nil_iff, mobileIssues_eq_nil_iff,
    passwordIssues_eq_nil_iff, farmAreaIssues_eq_nil_iff]
  simp only [codeRegisterRulesOk, Bool.and_eq_true, decide_eq_true_eq]
  tauto

/-! ## Claim theorems -/

/-- C1: on both feature pages, `handleFileSelect` accepts an offered file
(makes it the selected file, clearing the displayed result) exactly when
its declared MIME type is one of `image/jpeg`, `image/png`,
`application/pdf` and its size is at most 5,242,880 bytes; any other
type/size combination is rejected with a destructive toast, leaving the
previously selected file and the displayed result unchanged. -/
theorem fileSelect_accepts_iff_type_and_size {α : Type}
    (st : FilePageState α) (f : JsFile) :
    (f.type ∈ allowedTypes ∧ f.size ≤ 5242880 →
      handleFileSelect st (some f)
        = { st with selectedFile := some f, result := none }) ∧
    (¬ (f.type ∈ allowedTypes ∧ f.size ≤ 5242880) →
      (handleFileSelect st (some f)).selectedFile = st.selectedFile ∧
      (handleFileSelect st (some f)).result = st.result ∧
      ∃ t : Toast, t.destructive = true ∧
        (handleFileSelect st (some f)).toasts = st.toasts ++ [t]) := by
  have hmax : maxFileSize = 5242880 := rfl
  constructor
  · rintro ⟨h1, h2⟩
    simp [handleFileSelect, h1, hmax, Nat.not_lt.mpr h2]
  · intro h
    by_cases h1 : f.type ∈ allowedTypes
    · have h2 : ¬ f.size ≤ 5242880 := fun hs => h ⟨h1, hs⟩
      refine ⟨?_, ?_, ⟨"File Too Large", "Please upload a file smaller than 5MB", true⟩,
        rfl, ?_⟩ <;>
        simp [handleFileSelect, h1, hmax, Nat.lt_of_not_le h2]
    · refine ⟨?_, ?_, ⟨"Invalid File Type", "Please upload a JPG, PNG, or PDF file", true⟩,
        rfl, ?_⟩ <;>
        simp [handleFileSelect, h1]

/-- C1 witness: a 100-byte PDF is accepted; a GIF of the same size is
rejected with a destructive toast, leaving file and result unchanged. -/
theorem fileSelect_accepts_iff_type_and_size_witness :
    (handleFileSelect (⟨none, none, []⟩ : FilePageState Unit)
        (some ⟨"r.pdf", "application/pdf", 100⟩)
      = { selectedFile := some ⟨"r.pdf", "application/pdf", 100⟩,
          result := none, toasts := [] }) ∧
    ((handleFileSelect (⟨none, none, []⟩ : FilePageState Unit)
        (some ⟨"r.gif", "image/gif", 100⟩)).selectedFile = none ∧
      (handleFileSelect (⟨none, none, []⟩ : FilePageState Unit)
        (some ⟨"r.gif", "image/gif", 100⟩)).result = none ∧
      ∃ t : Toast, t.destructive = true ∧
        (handleFileSelect (⟨none, none, []⟩ : FilePageState Unit)
          (some ⟨"r.gif", "image/gif", 100⟩)).toasts = [] ++ [t]) := by
  constructor
  · exact (fileSelect_accepts_iff_type_and_size ⟨none, none, []⟩
      ⟨"r.pdf", "application/pdf", 100⟩).1 (by decide)
  · exact (fileSelect_accepts_iff_type_and_size ⟨none, none, []⟩
      ⟨"r.gif", "image/gif", 100⟩).2 (by decide)

/-- C5: the mobile-number `onChange` sanitisation (identical in Register
and Login) stores exactly the digit characters of the raw input, in order,
truncated to the first ten; in particular the stored value is all digits
and at most ten characters long. -/
theorem mobileSanitize_digits_take_ten (s : String) :
    mobileInputSanitize s = String.mk ((s.data.filter Char.isDigit).take 10) ∧
    (mobileInputSanitize s).data.all Char.isDigit = true ∧
    (mobileInputSanitize s).length ≤ 10 := by
  have he : mobileInputSanitize s
      = String.mk ((s.data.filter Char.isDigit).take 10) := by
    unfold mobileInputSanitize jsSlice
    rw [jsReplaceNonDigits_eq_filter, List.drop_zero]
  refine ⟨he, ?_, ?_⟩
  · rw [he]
    simp only [List.all_eq_true]
    intro c hc
    exact List.of_mem_filter (List.mem_of_mem_take hc)
  · rw [he]
    show ((s.data.filter Char.isDigit).take 10).length ≤ 10
    simp [List.length_take]

/-- C2: the session container's `user` field equals `session?.user ?? null`
after every sequence of auth-state notifications (and after the initial
`getSession` resolution); in particular it is non-null right after a
sign-in notification carrying a session and null right after a sign-out
notification. -/
theorem authProvider_user_eq_session_user
    (evs : List (String × Option SessionT)) (ev : String)
    (sess : Option SessionT) :
    ((applyAuthEvents initialAuthState (evs ++ [(ev, sess)])).user
        = sess.map SessionT.user) ∧
    (∀ s, sess = some s →
      (applyAuthEvents initialAuthState (evs ++ [(ev, sess)])).user
        = some s.user) ∧
    (sess = none →
      (applyAuthEvents initialAuthState (evs ++ [(ev, sess)])).user = none) ∧
    ((applyAuthEvents initialAuthState evs).user
        = (applyAuthEvents initialAuthState evs).session.map SessionT.user) ∧
    (∀ st, (resolveGetSession sess st).user = sess.map SessionT.user) := by
  have hstep : (applyAuthEvents initialAuthState (evs ++ [(ev, sess)])).user
      = sess.map SessionT.user := by
    rw [applyAuthEvents_append_one]
    rfl
  refine ⟨hstep, ?_, ?_, ?_, ?_⟩
  · intro s hs
    rw [hstep, hs]
    rfl
  · intro hs
    rw [hstep, hs]
    rfl
  · exact applyAuthEvents_invariant evs initialAuthState rfl
  · intro st
    rfl

/-- C2 witness: a sign-in notification with user `uid1` leaves a non-null
identity; a following sign-out notification nulls it. -/
theorem authProvider_user_eq_session_user_witness :
    ((applyAuthEvents initialAuthState
        ([] ++ [("SIGNED_IN", some ⟨⟨"uid1"⟩⟩)])).user = some ⟨"uid1"⟩) ∧
    ((applyAuthEvents initialAuthState
        ([("SIGNED_IN", some ⟨⟨"uid1"⟩⟩)] ++ [("SIGNED_OUT", none)])).user
      = none) := by
  constructor
  · exact (authProvider_user_eq_session_user [] "SIGNED_IN"
      (some ⟨⟨"uid1"⟩⟩)).2.1 ⟨⟨"uid1"⟩⟩ rfl
  · exact (authProvider_user_eq_session_user [("SIGNED_IN", some ⟨⟨"uid1"⟩⟩)]
      "SIGNED_OUT" none).2.2.1 rfl

/-- C3: when account creation succeeds but the profile insert fails,
`signUp` leaves the created account as the only durable effect — no
profile row, and no compensating deletion of any account — and the failure
surfaces to the user only as the single destructive
"Profile Creation Error" toast. -/
theorem signUp_profile_failure_no_rollback (email : String) (ud : UserData)
    (env : SignUpEnv) (d : SignUpData) (u : UserT) (pe : JsError)
    (hauth : env.authResult = .ok d) (hu : d.user = some u)
    (hp : env.profileInsertError = some pe) :
    (signUp email ud env).effects = [.accountCreated email] ∧
    (∀ em, ExternalEffect.accountDeleted em ∉ (signUp email ud env).effects) ∧
    (∀ uid row, ExternalEffect.profileInserted uid row ∉ (signUp email ud env).effects) ∧
    (signUp email ud env).toasts =
      [⟨"Profile Creation Error",
        "Account created but profile setup failed. Please contact support.",
        true⟩] := by
  simp [signUp, hauth, hu, hp]

/-- C3 witness: a concrete run with a created user and a failing profile
insert. -/
theorem signUp_profile_failure_no_rollback_witness :
    (signUp "9876543210@agrosanga.local"
        ⟨"Ravi", "9876543210", none, "2.5"⟩
        ⟨.ok ⟨some ⟨"uid1"⟩⟩, some ⟨"duplicate key"⟩⟩).effects
      = [.accountCreated "9876543210@agrosanga.local"] ∧
    (signUp "9876543210@agrosanga.local"
        ⟨"Ravi", "9876543210", none, "2.5"⟩
        ⟨.ok ⟨some ⟨"uid1"⟩⟩, some ⟨"duplicate key"⟩⟩).toasts
      = [⟨"Profile Creation Error",
          "Account created but profile setup failed. Please contact support.",
          true⟩] := by
  have h := signUp_profile_failure_no_rollback "9876543210@agrosanga.local"
    ⟨"Ravi", "9876543210", none, "2.5"⟩
    ⟨.ok ⟨some ⟨"uid1"⟩⟩, some ⟨"duplicate key"⟩⟩
    ⟨some ⟨"uid1"⟩⟩ ⟨"uid1"⟩ ⟨"duplicate key"⟩ rfl rfl rfl
  exact ⟨h.1, h.2.2.2⟩

/-- C9: whenever account creation succeeds, `signUp` returns
`{ error: null }` — whatever the outcome of the profile insert — and so a
validated Register submission navigates to the login view even when only
the account half of registration exists. -/
theorem signUp_success_returns_null_error (f : RegisterForm)
    (env : SignUpEnv) (d : SignUpData)
    (hv : (registerIssues f).isEmpty = true)
    (hauth : env.authResult = .ok d) :
    (signUp (registerEmail f) (registerUserData f) env).ret = none ∧
    (handleSubmitRegister f
        (signUp (registerEmail f) (registerUserData f) env).ret).navigatedToLogin
      = true ∧
    (handleSubmitRegister f
        (signUp (registerEmail f) (registerUserData f) env).ret).signUpCall
      = some (registerEmail f, f.password, registerUserData f) := by
  have hret : (signUp (registerEmail f) (registerUserData f) env).ret = none := by
    cases hu : d.user with
    | none => simp [signUp, hauth, hu]
    | some u =>
      cases hpe : env.profileInsertError with
      | none => simp [signUp, hauth, hu, hpe]
      | some pe => simp [signUp, hauth, hu, hpe]
  refine ⟨hret, ?_, ?_⟩ <;> rw [hret] <;> simp [handleSubmitRegister, hv]

/-- C9 witness: with a failing profile insert, the run still returns no
error and the Register page still navigates to `/login`. -/
theorem signUp_success_returns_null_error_witness :
    (signUp (registerEmail ⟨"Ravi", "9876543210", "secret1", "", "2.5"⟩)
        (registerUserData ⟨"Ravi", "9876543210", "secret1", "", "2.5"⟩)
        ⟨.ok ⟨some ⟨"uid1"⟩⟩, some ⟨"duplicate key"⟩⟩).ret = none ∧
    (handleSubmitRegister ⟨"Ravi", "9876543210", "secret1", "", "2.5"⟩
        (signUp (registerEmail ⟨"Ravi", "9876543210", "secret1", "", "2.5"⟩)
          (registerUserData ⟨"Ravi", "9876543210", "secret1", "", "2.5"⟩)
          ⟨.ok ⟨some ⟨"uid1"⟩⟩, some ⟨"duplicate key"⟩⟩).ret).navigatedToLogin
      = true := by
  have h := signUp_success_returns_null_error
    ⟨"Ravi", "9876543210", "secret1", "", "2.5"⟩
    ⟨.ok ⟨some ⟨"uid1"⟩⟩, some ⟨"duplicate key"⟩⟩
    ⟨some ⟨"uid1"⟩⟩ (by decide) rfl
  exact ⟨h.1, h.2.1⟩

/-- C6: a Login or Register submission whose inputs fail the client-side
schema returns before the backend call: `signIn`/`signUp` receive no call
and no navigation happens. -/
theorem submit_invalid_blocks_backend (rf : RegisterForm) (lf : LoginForm)
    (r1 r2 : Option JsError) :
    ((registerIssues rf).isEmpty = false →
      (handleSubmitRegister rf r1).signUpCall = none ∧
      (handleSubmitRegister rf r1).navigatedToLogin = false) ∧
    ((loginIssues lf).isEmpty = false →
      (handleSubmitLogin lf r2).signInCall = none ∧
      (handleSubmitLogin lf r2).navigatedHome = false) := by
  constructor <;> intro h <;>
    simp [handleSubmitRegister, handleSubmitLogin, h]

/-- C6 witness: an all-empty Register form and an empty Login form issue no
backend call. -/
theorem submit_invalid_blocks_backend_witness :
    ((handleSubmitRegister ⟨"", "", "", "", ""⟩ none).signUpCall = none ∧
      (handleSubmitRegister ⟨"", "", "", "", ""⟩ none).navigatedToLogin = false) ∧
    ((handleSubmitLogin ⟨"", ""⟩ none).signInCall = none ∧
      (handleSubmitLogin ⟨"", ""⟩ none).navigatedHome = false) := by
  have h := submit_invalid_blocks_backend ⟨"", "", "", "", ""⟩ ⟨"", ""⟩ none none
  exact ⟨h.1 (by decide), h.2 (by decide)⟩

/-- C8 counterexample: the sign-out notification is an auth-state
transition (it resets the session to null), yet it schedules no deferred
profile lookup — refuting "on every transition ... triggers a deferred
lookup". -/
theorem authProvider_no_lookup_on_signout :
    (onAuthStateChange "SIGNED_OUT" none
        ⟨some ⟨"uid1"⟩, some ⟨⟨"uid1"⟩⟩, false⟩).1
      = ⟨none, none, false⟩ ∧
    (onAuthStateChange "SIGNED_OUT" none
        ⟨some ⟨"uid1"⟩, some ⟨⟨"uid1"⟩⟩, false⟩).2 = [] := by
  decide

/-- C8 (amended): the deferred fire-and-forget profile lookup is scheduled
exactly on `SIGNED_IN` notifications carrying a session user; the lookup's
outcome never alters the provider state, and its failure is only written to
the console. -/
theorem authProvider_lookup_only_on_signin (ev : String)
    (sess : Option SessionT) (st : AuthState) :
    ((onAuthStateChange ev sess st).2 ≠ [] ↔
      (ev = "SIGNED_IN" ∧ sess.isSome = true)) ∧
    (∀ s, sess = some s → ev = "SIGNED_IN" →
      (onAuthStateChange ev sess st).2 = [Deferred.fetchProfile s.user.id]) ∧
    (∀ outcome st2, (runDeferredFetch outcome st2).1 = st2) ∧
    (∀ msg st2, (runDeferredFetch (Except.error msg) st2).2
      = [LogEntry.error "Error fetching profile:"]) := by
  refine ⟨?_, ?_, ?_, ?_⟩
  · cases sess with
    | none => simp [onAuthStateChange]
    | some s =>
      by_cases hev : ev = "SIGNED_IN" <;> simp [onAuthStateChange, hev]
  · intro s hs hev
    subst hs hev
    simp [onAuthStateChange]
  · intro outcome st2
    cases outcome with
    | error e => rfl
    | ok p => cases p <;> rfl
  · intro msg st2
    rfl

/-- C8 witness: a sign-in notification schedules the lookup for its user,
and a failing lookup leaves the state untouched while logging. -/
theorem authProvider_lookup_only_on_signin_witness :
    ((onAuthStateChange "SIGNED_IN" (some ⟨⟨"uid1"⟩⟩) initialAuthState).2
      = [Deferred.fetchProfile "uid1"]) ∧
    ((runDeferredFetch (Except.error "network down")
        ⟨some ⟨"uid1"⟩, some ⟨⟨"uid1"⟩⟩, false⟩).1
      = ⟨some ⟨"uid1"⟩, some ⟨⟨"uid1"⟩⟩, false⟩) ∧
    ((runDeferredFetch (Except.error "network down")
        ⟨some ⟨"uid1"⟩, some ⟨⟨"uid1"⟩⟩, false⟩).2
      = [LogEntry.error "Error fetching profile:"]) := by
  have h := authProvider_lookup_only_on_signin "SIGNED_IN"
    (some ⟨⟨"uid1"⟩⟩) initialAuthState
  exact ⟨h.2.1 ⟨⟨"uid1"⟩⟩ rfl rfl,
    h.2.2.1 (Except.error "network down") ⟨some ⟨"uid1"⟩, some ⟨⟨"uid1"⟩⟩, false⟩,
    h.2.2.2 "network down" ⟨some ⟨"uid1"⟩, some ⟨⟨"uid1"⟩⟩, false⟩⟩

/-- A field with at least one issue ends up with an entry in the recorded
errors object of a blocked Register submission. -/
theorem lookupError_register_field (f : RegisterForm) (ret : Option JsError)
    (k : String)
    (hk : (registerIssues f).any (fun p => p.1 == k) = true) :
    lookupError (handleSubmitRegister f ret).errors k ≠ none := by
  have hne : (registerIssues f).isEmpty = false := by
    cases hi : (registerIssues f).isEmpty
    · rfl
    · rw [List.isEmpty_iff] at hi
      rw [hi] at hk
      simp at hk
  simp only [handleSubmitRegister, hne, Bool.false_eq_true, if_false]
  rw [Option.ne_none_iff_isSome, lookupError_collect_isSome]
  exact hk

/-- C4 counterexample: the claim's rule set diverges from the code in two
places. A name of raw length 2 that trims to 1 character (" A") violates
the claim's "2–50 characters after trimming" rule, yet the submission
proceeds to `signUp` (zod checks `min`/`max` before the `.trim()`
transform). A 101-character secret satisfies the claim's "at least 6
characters", yet the code blocks it (`max(100)`). -/
theorem register_validation_spec_counterexample :
    (specRegisterRulesOk ⟨" A", "1234567890", "secret", "", "2.5"⟩ = false ∧
      (handleSubmitRegister ⟨" A", "1234567890", "secret", "", "2.5"⟩
        none).signUpCall.isSome = true) ∧
    (specRegisterRulesOk ⟨"Ravi", "1234567890",
        String.mk (List.replicate 101 'a'), "", "2.5"⟩ = true ∧
      (handleSubmitRegister ⟨"Ravi", "1234567890",
        String.mk (List.replicate 101 'a'), "", "2.5"⟩ none).signUpCall = none ∧
      (handleSubmitRegister ⟨"Ravi", "1234567890",
        String.mk (List.replicate 101 'a'), "", "2.5"⟩ none).validated
        = false) := by
  decide

/-- C4 (amended): submission validates and proceeds to `signUp` exactly for
forms satisfying the implemented rules (name 2–50 characters of the raw
input, contact exactly 10 digits, secret 6–100 characters, farm area
nonempty and parsing to a positive number, reference code unconstrained);
a passing form has its errors cleared, and every failing field gets an
error message recorded under its key. -/
theorem register_validation_blocks_and_proceeds (f : RegisterForm)
    (ret : Option JsError) :
    ((handleSubmitRegister f ret).validated = codeRegisterRulesOk f) ∧
    ((handleSubmitRegister f ret).signUpCall.isSome = codeRegisterRulesOk f) ∧
    (codeRegisterRulesOk f = true → (handleSubmitRegister f ret).errors = []) ∧
    (nameIssues f.name ≠ [] →
      lookupError (handleSubmitRegister f ret).errors "name" ≠ none) ∧
    (mobileIssues f.mobileNumber ≠ [] →
      lookupError (handleSubmitRegister f ret).errors "mobileNumber" ≠ none) ∧
    (passwordIssues f.password ≠ [] →
      lookupError (handleSubmitRegister f ret).errors "password" ≠ none) ∧
    (farmAreaIssues f.farmArea ≠ [] →
      lookupError (handleSubmitRegister f ret).errors "farmArea" ≠ none) := by
  have hiff := registerIssues_eq_nil_iff f
  refine ⟨?_, ?_, ?_, ?_, ?_, ?_, ?_⟩
  · cases hi : (registerIssues f).isEmpty
    · have hc : codeRegisterRulesOk f = false := by
        cases hc : codeRegisterRulesOk f
        · rfl
        · have h0 := hiff.mpr hc
          rw [← List.isEmpty_iff] at h0
          rw [h0] at hi
          exact absurd hi (by simp)
      simp [handleSubmitRegister, hi, hc]
    · have hc : codeRegisterRulesOk f = true :=
        hiff.mp (List.isEmpty_iff.mp hi)
      simp [handleSubmitRegister, hi, hc]
  · cases hi : (registerIssues f).isEmpty
    · have hc : codeRegisterRulesOk f = false := by
        cases hc : codeRegisterRulesOk f
        · rfl
        · have h0 := hiff.mpr hc
          rw [← List.isEmpty_iff] at h0
          rw [h0] at hi
          exact absurd hi (by simp)
      simp [handleSubmitRegister, hi, hc]
    · have hc : codeRegisterRulesOk f = true :=
        hiff.mp (List.isEmpty_iff.mp hi)
      simp [handleSubmitRegister, hi, hc]
  · intro hc
    have h0 : (registerIssues f).isEmpty = true := by
      rw [List.isEmpty_iff]
      exact hiff.mpr hc
    simp [handleSubmitRegister, h0]
  · intro hn
    refine lookupError_register_field f ret "name" ?_
    rcases hn0 : nameIssues f.name with _ | ⟨m, t⟩
    · exact absurd hn0 hn
    · simp [registerIssues, List.any_append, List.any_map, hn0,
        Function.comp]
  · intro hn
    refine lookupError_register_field f ret "mobileNumber" ?_
    rcases hn0 : mobileIssues f.mobileNumber with _ | ⟨m, t⟩
    · exact absurd hn0 hn
    · simp [registerIssues, List.any_append, List.any_map, hn0,
        Function.comp]
  · intro hn
    refine lookupError_register_field f ret "password" ?_
    rcases hn0 : passwordIssues f.password with _ | ⟨m, t⟩
    · exact absurd hn0 hn
    · simp [registerIssues, List.any_append, List.any_map, hn0,
        Function.comp]
  · intro hn
    refine lookupError_register_field f ret "farmArea" ?_
    rcases hn0 : farmAreaIssues f.farmArea with _ | ⟨m, t⟩
    · exact absurd hn0 hn
    · simp [registerIssues, List.any_append, List.any_map, hn0,
        Function.comp]

/-- C4 witness: the all-empty form is blocked with a name error recorded;
the spec's own end-to-end example (Ravi / 9876543210 / secret1 / 2.5)
validates and reaches `signUp`. -/
theorem register_validation_blocks_and_proceeds_witness :
    (lookupError (handleSubmitRegister ⟨"", "", "", "", ""⟩ none).errors "name"
      ≠ none) ∧
    ((handleSubmitRegister ⟨"Ravi", "9876543210", "secret1", "", "2.5"⟩
        none).signUpCall.isSome = true) ∧
    ((handleSubmitRegister ⟨"Ravi", "9876543210", "secret1", "", "2.5"⟩
        none).errors = []) := by
  refine ⟨?_, ?_, ?_⟩
  · exact (register_validation_blocks_and_proceeds ⟨"", "", "", "", ""⟩
      none).2.2.2.1 (by decide)
  · rw [(register_validation_blocks_and_proceeds
      ⟨"Ravi", "9876543210", "secret1", "", "2.5"⟩ none).2.1]
    decide
  · exact (register_validation_blocks_and_proceeds
      ⟨"Ravi", "9876543210", "secret1", "", "2.5"⟩ none).2.2.1 (by decide)

/-- C7 counterexample: a failing database insert after a successful upload
and analysis is an external-call failure that is *not* converted into any
user-visible notification: the run writes only a console entry and still
shows the success toast (and the result), refuting "every failure ... is
converted into a user-visible transient notification". -/
theorem analysis_db_failure_silent_counterexample :
    ((handleAnalysisPredict (some ⟨"r.pdf", "application/pdf", 100⟩)
        (some ⟨"uid1"⟩) (none : Option Unit)
        ⟨none, some ⟨"row-level security violation"⟩⟩ ()).inserted = false) ∧
    ((handleAnalysisPredict (some ⟨"r.pdf", "application/pdf", 100⟩)
        (some ⟨"uid1"⟩) (none : Option Unit)
        ⟨none, some ⟨"row-level security violation"⟩⟩ ()).console
      = [LogEntry.error "Error saving prediction:"]) ∧
    ((handleAnalysisPredict (some ⟨"r.pdf", "application/pdf", 100⟩)
        (some ⟨"uid1"⟩) (none : Option Unit)
        ⟨none, some ⟨"row-level security violation"⟩⟩ ()).toasts
      = [⟨"Analysis Complete!", "Your yield prediction is ready", false⟩]) ∧
    ((handleAnalysisPredict (some ⟨"r.pdf", "application/pdf", 100⟩)
        (some ⟨"uid1"⟩) (none : Option Unit)
        ⟨none, some ⟨"row-level security violation"⟩⟩ ()).toasts.all
          (fun t => !t.destructive) = true) ∧
    ((handleAnalysisPredict (some ⟨"r.pdf", "application/pdf", 100⟩)
        (some ⟨"uid1"⟩) (none : Option Unit)
        ⟨none, some ⟨"row-level security violation"⟩⟩ ()).result = some ()) := by
  decide

/-- C7 (amended): the analysis handlers catch every external-call failure
and complete normally (the `analyzing` flag is reset and the call list
never repeats a call, so nothing is retried and nothing is fatal); an
upload failure is surfaced as a destructive "Analysis Failed" toast, but a
database-insert failure after a successful upload is only written to the
console while the run still displays the result and a success toast. -/
theorem analysis_failures_caught_not_retried {α β : Type}
    (file : Option JsFile) (u : Option UserT) (w : Option WeatherData)
    (prevR : Option α) (prevP : Option β) (env : AnalysisEnv)
    (aR : α) (aP : β) :
    ((handleAnalysisRecommend file u w prevR env aR).calls.Nodup ∧
      (handleAnalysisRecommend file u w prevR env aR).analyzing = false) ∧
    ((handleAnalysisPredict file u prevP env aP).calls.Nodup ∧
      (handleAnalysisPredict file u prevP env aP).analyzing = false) ∧
    (∀ e, env.uploadError = some e → file.isSome = true → u.isSome = true →
      w.isSome = true →
      (⟨"Analysis Failed", analysisFailDesc e, true⟩ : Toast)
          ∈ (handleAnalysisRecommend file u w prevR env aR).toasts ∧
      (⟨"Analysis Failed", analysisFailDesc e, true⟩ : Toast)
          ∈ (handleAnalysisPredict file u prevP env aP).toasts) ∧
    (∀ e, env.uploadError = none → env.dbError = some e →
      file.isSome = true → u.isSome = true → w.isSome = true →
      ((handleAnalysisRecommend file u w prevR env aR).toasts
          = [⟨"Analysis Complete!", "Your crop recommendations are ready",
              false⟩] ∧
        (handleAnalysisRecommend file u w prevR env aR).console
          = [LogEntry.error "Error saving recommendation:"] ∧
        (handleAnalysisRecommend file u w prevR env aR).result = some aR) ∧
      ((handleAnalysisPredict file u prevP env aP).toasts
          = [⟨"Analysis Complete!", "Your yield prediction is ready", false⟩] ∧
        (handleAnalysisPredict file u prevP env aP).console
          = [LogEntry.error "Error saving prediction:"] ∧
        (handleAnalysisPredict file u prevP env aP).result = some aP)) := by
  obtain ⟨ue, de⟩ := env
  refine ⟨⟨?_, ?_⟩, ⟨?_, ?_⟩, ?_, ?_⟩
  · cases file <;> cases u <;> cases w <;> cases ue <;> cases de <;>
      simp [handleAnalysisRecommend, List.nodup_cons]
  · cases file <;> cases u <;> cases w <;> cases ue <;> cases de <;>
      simp [handleAnalysisRecommend]
  · cases file <;> cases u <;> cases ue <;> cases de <;>
      simp [handleAnalysisPredict, List.nodup_cons]
  · cases file <;> cases u <;> cases ue <;> cases de <;>
      simp [handleAnalysisPredict]
  · intro e hue hf hu hw
    cases file <;> cases u <;> cases w <;> simp at hf hu hw <;>
      cases hue <;>
      simp [handleAnalysisRecommend, handleAnalysisPredict]
  · intro e hue hde hf hu hw
    cases file <;> cases u <;> cases w <;> simp at hf hu hw <;>
      cases hue <;> cases hde <;>
      simp [handleAnalysisRecommend, handleAnalysisPredict]

/-- C7 witness: a concrete upload failure on both pages yields the
destructive toast, and a concrete database failure yields the silent
console-only branch. -/
theorem analysis_failures_caught_not_retried_witness :
    ((⟨"Analysis Failed", "storage quota exceeded", true⟩ : Toast)
        ∈ (handleAnalysisRecommend (some ⟨"r.pdf", "application/pdf", 100⟩)
            (some ⟨"uid1"⟩) (some ⟨30, 70, 90, "Monsoon"⟩) (none : Option Unit)
            ⟨some ⟨"storage quota exceeded"⟩, none⟩ ()).toasts) ∧
    ((handleAnalysisRecommend (some ⟨"r.pdf", "application/pdf", 100⟩)
        (some ⟨"uid1"⟩) (some ⟨30, 70, 90, "Monsoon"⟩) (none : Option Unit)
        ⟨none, some ⟨"insert denied"⟩⟩ ()).console
      = [LogEntry.error "Error saving recommendation:"]) := by
  constructor
  · have h := (analysis_failures_caught_not_retried
      (some ⟨"r.pdf", "application/pdf", 100⟩) (some ⟨"uid1"⟩)
      (some ⟨30, 70, 90, "Monsoon"⟩) (none : Option Unit) (none : Option Unit)
      ⟨some ⟨"storage quota exceeded"⟩, none⟩ () ()).2.2.1
      ⟨"storage quota exceeded"⟩ rfl rfl rfl rfl
    simpa [analysisFailDesc] using h.1
  · exact ((analysis_failures_caught_not_retried
      (some ⟨"r.pdf", "application/pdf", 100⟩) (some ⟨"uid1"⟩)
      (some ⟨30, 70, 90, "Monsoon"⟩) (none : Option Unit) (none : Option Unit)
      ⟨none, some ⟨"insert denied"⟩⟩ () ()).2.2.2
      ⟨"insert denied"⟩ rfl rfl rfl rfl rfl).1.2.1

/-- C10: on both feature pages, if the storage upload returns an error the
handler throws before the analysis step: the only external call issued is
the upload, no row is inserted, the mock analysis never runs, and the
displayed result is unchanged — in particular it remains null when it was
null. -/
theorem analysis_upload_failure_blocks_insert {α β : Type} (f : JsFile)
    (u : UserT) (w : WeatherData) (prevR : Option α) (prevP : Option β)
    (env : AnalysisEnv) (e : JsError) (aR : α) (aP : β)
    (hup : env.uploadError = some e) :
    ((handleAnalysisRecommend (some f) (some u) (some w) prevR env aR).calls
        = [.storageUpload] ∧
      (handleAnalysisRecommend (some f) (some u) (some w) prevR env aR).inserted
        = false ∧
      (handleAnalysisRecommend (some f) (some u) (some w) prevR env aR).analysisRan
        = false ∧
      (handleAnalysisRecommend (some f) (some u) (some w) prevR env aR).result
        = prevR) ∧
    ((handleAnalysisPredict (some f) (some u) prevP env aP).calls
        = [.storageUpload] ∧
      (handleAnalysisPredict (some f) (some u) prevP env aP).inserted = false ∧
      (handleAnalysisPredict (some f) (some u) prevP env aP).analysisRan
        = false ∧
      (handleAnalysisPredict (some f) (some u) prevP env aP).result = prevP) := by
  obtain ⟨ue, de⟩ := env
  simp only at hup
  cases hup
  constructor <;>
    simp [handleAnalysisRecommend, handleAnalysisPredict]

/-- C10 witness: a concrete failing upload on both pages with a previously
null result leaves the result null and inserts nothing. -/
theorem analysis_upload_failure_blocks_insert_witness :
    ((handleAnalysisRecommend (some ⟨"r.pdf", "application/pdf", 100⟩)
        (some ⟨"uid1"⟩) (some ⟨30, 70, 90, "Monsoon"⟩) (none : Option Unit)
        ⟨some ⟨"upload failed"⟩, none⟩ ()).inserted = false) ∧
    ((handleAnalysisRecommend (some ⟨"r.pdf", "application/pdf", 100⟩)
        (some ⟨"uid1"⟩) (some ⟨30, 70, 90, "Monsoon"⟩) (none : Option Unit)
        ⟨some ⟨"upload failed"⟩, none⟩ ()).result = none) ∧
    ((handleAnalysisPredict (some ⟨"r.pdf", "application/pdf", 100⟩)
        (some ⟨"uid1"⟩) (none : Option Unit)
        ⟨some ⟨"upload failed"⟩, none⟩ ()).inserted = false) ∧
    ((handleAnalysisPredict (some ⟨"r.pdf", "application/pdf", 100⟩)
        (some ⟨"uid1"⟩) (none : Option Unit)
        ⟨some ⟨"upload failed"⟩, none⟩ ()).result = none) := by
  have h := analysis_upload_failure_blocks_insert
    ⟨"r.pdf", "application/pdf", 100⟩ ⟨"uid1"⟩ ⟨30, 70, 90, "Monsoon"⟩
    (none : Option Unit) (none : Option Unit)
    ⟨some ⟨"upload failed"⟩, none⟩ ⟨"upload failed"⟩ () () rfl
  exact ⟨h.1.2.1, h.1.2.2.2, h.2.2.1, h.2.2.2.2⟩

end AgroSanga
